import Mathlib

/-!
Shallow embedding of the EN 50221 session layer from
src/lib/libdvben50221/en50221_session.c (the pthread-protected variant with
the S_STATE_* constants).  Each C function is translated one to one: the
session table is a list of records, user callbacks and the transport are an
explicit environment, and every callback invocation and transport write is
recorded as an event in execution order.  Array accesses that the C code
performs at an out-of-range index are recorded as oobRead / oobWrite events
instead of dereferencing memory.
-/

set_option autoImplicit false

namespace EN50221

/-- Session states, numeric values exactly as in the source.
Note that S_STATE_IDLE is 0x00: bitwise tests against it never succeed. -/
def S_STATE_IDLE : Nat := 0x00

def S_STATE_ACTIVE : Nat := 0x01

def S_STATE_IN_CREATION : Nat := 0x02

def S_STATE_IN_DELETION : Nat := 0x04

/-- SPDU status codes (int-valued in the handlers). -/
def S_STATUS_OPEN : Int := 0x00

def S_STATUS_CLOSE_NO_RES : Int := 0xF0

def S_STATUS_CLOSE_RES_UNAVAILABLE : Int := 0xF1

def S_STATUS_CLOSE_RES_LOW_VERSION : Int := 0xF2

def S_STATUS_CLOSE_RES_BUSY : Int := 0xF3

/-- SPDU tags. -/
def ST_SESSION_NUMBER : Nat := 0x90

def ST_OPEN_SESSION_REQ : Nat := 0x91

def ST_OPEN_SESSION_RES : Nat := 0x92

def ST_CREATE_SESSION : Nat := 0x93

def ST_CREATE_SESSION_RES : Nat := 0x94

def ST_CLOSE_SESSION_REQ : Nat := 0x95

def ST_CLOSE_SESSION_RES : Nat := 0x96

/-- Error codes stored in the error field of the layer.
EN50221ERR_BADSESSIONNUMBER and EN50221ERR_IOVLIMIT appear in the source;
en50221_errno.h itself is not under src.  Modelled from the spec: section 7
lists BadSessionNumber, NoFreeSession, IovLimit and TransportError as
distinct members of the error taxonomy, so they are distinct constructors. -/
inductive SlError where
  | noError
  | badSessionNumber
  | noFreeSession
  | iovLimit
  | transportError (code : Int)
  deriving DecidableEq, Repr

/-- Reasons of the session-lifecycle callback (S_SCALLBACK_REASON_*). -/
inductive CbReason where
  | connecting
  | connected
  | connectFail
  | close
  deriving DecidableEq, Repr

/-- One record of the session table (struct en50221_session).  The resource
data callback is an opaque identifier; none models a NULL pointer. -/
structure en50221_session where
  state : Nat
  resource_id : Nat
  slot_id : Nat
  connection_id : Nat
  callback : Option Nat
  deriving DecidableEq, Repr

/-- Mutable state of the layer (struct en50221_session_layer_private):
the fixed-capacity session table and the last error.  max_sessions is the
length of the table.  The registered callbacks and the transport are kept
in the separate environment below because they are functions. -/
structure en50221_session_layer where
  sessions : List en50221_session
  error : SlError
  deriving DecidableEq, Repr

/-- Result of the lookup callback: the decision code it returns and the
resource data callback it hands back through its out parameter. -/
structure LookupResult where
  decision : Int
  callback : Option Nat

/-- The callers side: the registered lookup callback, the registered
session-lifecycle callback (its Int result is inspected only for the
Connecting reason), and the transport:  sendOK says whether
en50221_tl_send_data succeeds for a given slot, connection and byte string,
and tlError is the code en50221_tl_get_error reports on failure. -/
structure CallbackEnv where
  lookup : Option (Nat → Nat → LookupResult)
  sessionCB : Option (CbReason → Nat → Int → Nat → Int)
  sendOK : Nat → Nat → List Nat → Bool
  tlError : Int

/-- Observable actions, in execution order. -/
inductive Event where
  | lookupEv (slot : Nat) (resource_id : Nat)
  | lifecycle (reason : CbReason) (slot : Nat) (session : Int) (resource_id : Nat)
  | dataEv (callback : Nat) (slot : Nat) (session : Nat) (resource_id : Nat) (payload : List Nat)
  | send (slot : Nat) (connection : Nat) (bytes : List Nat)
  | oobWrite (index : Int)
  | oobRead (index : Nat)
  deriving DecidableEq, Repr

/-- Reading byte i of a uint8_t buffer (0 when past the end). -/
def byteAt (data : List Nat) (i : Nat) : Nat :=
  data.getD i 0 % 256

/-- Store of a Nat into a uint8_t. -/
def u8n (x : Nat) : Nat := x % 256

/-- Store of an int into a uint8_t (two-s complement truncation). -/
def u8i (x : Int) : Nat := (x.emod 256).toNat

/-- Arithmetic right shift of an int by 8. -/
def asr8 (x : Int) : Int := x.ediv 256

/-- Default record used where C would read an uninitialized slot. -/
def dSession : en50221_session := ⟨0, 0, 0, 0, none⟩

/-- In-place update of table entry i (entries past the end untouched). -/
def setSession : List en50221_session → Nat → (en50221_session → en50221_session) →
    List en50221_session
  | [], _, _ => []
  | s :: rest, 0, f => f s :: rest
  | s :: rest, n + 1, f => s :: setSession rest n f

/-- Index of the first element satisfying p (the C for loops that scan the
session table from index 0 and break at the first hit). -/
def findFirst {α : Type} (p : α → Bool) : List α → Option Nat
  | [] => none
  | s :: rest => if p s then some 0 else Option.map (fun n => n + 1) (findFirst p rest)

/-- en50221_sl_get_error. -/
def en50221_sl_get_error (st : en50221_session_layer) : SlError :=
  st.error

/-- SPDU the host transmits for en50221_sl_create_session. -/
def createSPDU (rid session_number : Nat) : List Nat :=
  [ST_CREATE_SESSION, 6, rid / 16777216 % 256, rid / 65536 % 256, rid / 256 % 256,
   rid % 256, u8n (session_number / 256), u8n session_number]

/-- en50221_sl_create_session: pick the lowest Idle entry, populate it as
InCreation, transmit the CreateSession SPDU.  On a full table the error is
EN50221ERR_BADSESSIONNUMBER; on a transport failure the populated entry is
left as is. -/
def en50221_sl_create_session (env : CallbackEnv) (st : en50221_session_layer)
    (slot_id connection_id resource_id : Nat) (callback : Option Nat) :
    en50221_session_layer × Int × List Event :=
  match findFirst (fun s => s.state == S_STATE_IDLE) st.sessions with
  | none => ({ st with error := SlError.badSessionNumber }, -1, [])
  | some session_number =>
    let rid := resource_id % 4294967296
    let st1 : en50221_session_layer :=
      { st with sessions := (setSession st.sessions session_number
          (fun _ => ⟨S_STATE_IN_CREATION, rid, slot_id, connection_id, callback⟩)) }
    let hdr := createSPDU rid session_number
    if env.sendOK slot_id connection_id hdr then
      (st1, (session_number : Int), [Event.send slot_id connection_id hdr])
    else
      ({ st1 with error := SlError.transportError env.tlError }, -1,
       [Event.send slot_id connection_id hdr])

/-- en50221_sl_destroy_session: an Active or InDeletion entry goes to
InDeletion and the CloseSessionReq SPDU is transmitted. -/
def en50221_sl_destroy_session (env : CallbackEnv) (st : en50221_session_layer)
    (session_number : Nat) : en50221_session_layer × Int × List Event :=
  if st.sessions.length ≤ session_number then
    ({ st with error := SlError.badSessionNumber }, -1, [])
  else
    let s := st.sessions.getD session_number dSession
    if s.state &&& (S_STATE_ACTIVE ||| S_STATE_IN_DELETION) = 0 then
      ({ st with error := SlError.badSessionNumber }, -1, [])
    else
      let st1 : en50221_session_layer :=
        { st with sessions := (setSession st.sessions session_number
            (fun t => { t with state := S_STATE_IN_DELETION })) }
      let hdr : List Nat :=
        [ST_CLOSE_SESSION_REQ, 2, u8n (session_number / 256), u8n session_number]
      if env.sendOK s.slot_id s.connection_id hdr then
        (st1, 0, [Event.send s.slot_id s.connection_id hdr])
      else
        ({ st1 with error := SlError.transportError env.tlError }, -1,
         [Event.send s.slot_id s.connection_id hdr])

/-- en50221_sl_handle_open_session_request.  data is the buffer after the
tag byte.  The free-entry scan tests state & S_STATE_IDLE, the cleanup at
the end writes sessions[session_number] even when session_number is -1
(recorded as an oobWrite event). -/
def en50221_sl_handle_open_session_request (env : CallbackEnv)
    (st : en50221_session_layer) (data : List Nat) (slot_id connection_id : Nat) :
    en50221_session_layer × List Event :=
  if data.length < 5 then (st, [])
  else if byteAt data 0 ≠ 4 then (st, [])
  else
    let resource_id := byteAt data 1 * 16777216 + byteAt data 2 * 65536 +
      byteAt data 3 * 256 + byteAt data 4
    let lres : Int × Option Nat × List Event :=
      match env.lookup with
      | none => (S_STATUS_CLOSE_NO_RES, none, [])
      | some lcb =>
        let r := lcb slot_id resource_id
        let st0 : Int :=
          if r.decision = 0 then S_STATUS_OPEN
          else if r.decision = -1 then S_STATUS_CLOSE_NO_RES
          else if r.decision = -2 then S_STATUS_CLOSE_RES_LOW_VERSION
          else if r.decision = -3 then S_STATUS_CLOSE_RES_UNAVAILABLE
          else r.decision
        (st0, r.callback, [Event.lookupEv slot_id resource_id])
    let status0 := lres.1
    let rcb := lres.2.1
    let evs0 := lres.2.2
    let alloc : en50221_session_layer × Int × Int × List Event :=
      if status0 = S_STATUS_OPEN then
        match findFirst (fun s => s.state &&& S_STATE_IDLE != 0) st.sessions with
        | some session_number =>
          let st1 : en50221_session_layer :=
            { st with sessions := (setSession st.sessions session_number
                (fun t => { t with state := S_STATE_IN_CREATION })) }
          let cres : Int × List Event :=
            match env.sessionCB with
            | some cb =>
              if cb CbReason.connecting slot_id ((session_number : Int)) resource_id ≠ 0 then
                (S_STATUS_CLOSE_RES_BUSY,
                 [Event.lifecycle CbReason.connecting slot_id ((session_number : Int)) resource_id])
              else
                (S_STATUS_OPEN,
                 [Event.lifecycle CbReason.connecting slot_id ((session_number : Int)) resource_id])
            | none => (S_STATUS_CLOSE_RES_UNAVAILABLE, [])
          let status1 := cres.1
          let st2 : en50221_session_layer :=
            if status1 ≠ S_STATUS_OPEN then
              { st1 with sessions := (setSession st1.sessions session_number
                  (fun t => { t with state := S_STATE_IDLE })) }
            else
              { st1 with sessions := (setSession st1.sessions session_number
                  (fun _ => ⟨S_STATE_ACTIVE, resource_id, slot_id, connection_id, rcb⟩)) }
          (st2, (session_number : Int), status1, cres.2)
        | none => (st, -1, S_STATUS_CLOSE_NO_RES, [])
      else (st, -1, status0, [])
    let st2 := alloc.1
    let session_number := alloc.2.1
    let status := alloc.2.2.1
    let evs1 := alloc.2.2.2
    let hdr : List Nat :=
      [ST_OPEN_SESSION_RES, 7, u8i status, resource_id / 16777216 % 256,
       resource_id / 65536 % 256, resource_id / 256 % 256, resource_id % 256,
       u8i (asr8 session_number), u8i session_number]
    let status2 : Int :=
      if env.sendOK slot_id connection_id hdr then status else S_STATUS_CLOSE_NO_RES
    let tail : en50221_session_layer × List Event :=
      if status2 = S_STATUS_OPEN then
        (st2,
         match env.sessionCB with
         | some _ => [Event.lifecycle CbReason.connected slot_id session_number resource_id]
         | none => [])
      else
        let wr : en50221_session_layer × List Event :=
          if 0 ≤ session_number ∧ session_number.toNat < st2.sessions.length then
            ({ st2 with sessions := (setSession st2.sessions session_number.toNat
                (fun t => { t with state := S_STATE_IDLE })) }, [])
          else (st2, [Event.oobWrite session_number])
        (wr.1,
         wr.2 ++
          (match env.sessionCB with
           | some _ => [Event.lifecycle CbReason.connectFail slot_id session_number resource_id]
           | none => []))
    (tail.1, evs0 ++ evs1 ++ [Event.send slot_id connection_id hdr] ++ tail.2)

/-- en50221_sl_handle_close_session_request.  The source reads
sessions[session_number].resource_id before the range check; the model
records an oobRead event when that index is out of range and reads 0. -/
def en50221_sl_handle_close_session_request (env : CallbackEnv)
    (st : en50221_session_layer) (data : List Nat) (slot_id connection_id : Nat) :
    en50221_session_layer × List Event :=
  if data.length < 3 then (st, [])
  else if byteAt data 0 ≠ 2 then (st, [])
  else
    let session_number := byteAt data 1 * 256 + byteAt data 2
    let resource_id := (st.sessions.getD session_number dSession).resource_id
    let readEvs : List Event :=
      if session_number < st.sessions.length then [] else [Event.oobRead session_number]
    let stCode : en50221_session_layer × Nat :=
      if st.sessions.length ≤ session_number then (st, 0xF0)
      else if slot_id ≠ (st.sessions.getD session_number dSession).slot_id then (st, 0xF0)
      else if connection_id ≠ (st.sessions.getD session_number dSession).connection_id then
        (st, 0xF0)
      else
        ({ st with sessions := (setSession st.sessions session_number
            (fun t => { t with state := S_STATE_IDLE })) }, 0x00)
    let hdr : List Nat :=
      [ST_CLOSE_SESSION_RES, 3, stCode.2, u8n (session_number / 256), u8n session_number]
    let cbEvs : List Event :=
      if stCode.2 = 0x00 then
        match env.sessionCB with
        | some _ => [Event.lifecycle CbReason.close slot_id ((session_number : Int)) resource_id]
        | none => []
      else []
    (stCode.1, readEvs ++ [Event.send slot_id connection_id hdr] ++ cbEvs)

/-- en50221_sl_handle_create_session_response.  The length guard demands at
least 9 bytes after the tag although the len byte it then requires to be 7
only promises 8, and the session number is read from offsets 5 and 6. -/
def en50221_sl_handle_create_session_response (st : en50221_session_layer)
    (data : List Nat) (slot_id connection_id : Nat) :
    en50221_session_layer × List Event :=
  if data.length < 9 then (st, [])
  else if byteAt data 0 ≠ 7 then (st, [])
  else
    let session_number := byteAt data 5 * 256 + byteAt data 6
    if st.sessions.length ≤ session_number then (st, [])
    else
      let s := st.sessions.getD session_number dSession
      if slot_id ≠ s.slot_id then (st, [])
      else if connection_id ≠ s.connection_id then (st, [])
      else if byteAt data 1 ≠ 0 then
        ({ st with sessions := (setSession st.sessions session_number
            (fun t => { t with state := S_STATE_IDLE })) }, [])
      else
        ({ st with sessions := (setSession st.sessions session_number
            (fun t => { t with state := S_STATE_ACTIVE })) }, [])

/-- en50221_sl_handle_close_session_response.  The length guard demands at
least 5 bytes after the tag although the len byte it then requires to be 3
only promises 4, and the session number is read from offsets 1 and 2. -/
def en50221_sl_handle_close_session_response (st : en50221_session_layer)
    (data : List Nat) (slot_id connection_id : Nat) :
    en50221_session_layer × List Event :=
  if data.length < 5 then (st, [])
  else if byteAt data 0 ≠ 3 then (st, [])
  else
    let session_number := byteAt data 1 * 256 + byteAt data 2
    if st.sessions.length ≤ session_number then (st, [])
    else
      let s := st.sessions.getD session_number dSession
      if slot_id ≠ s.slot_id then (st, [])
      else if connection_id ≠ s.connection_id then (st, [])
      else
        ({ st with sessions := (setSession st.sessions session_number
            (fun t => { t with state := S_STATE_IDLE })) }, [])

/-- en50221_sl_handle_session_package: route the payload after the session
number to the data callback of the named Active session. -/
def en50221_sl_handle_session_package (st : en50221_session_layer)
    (data : List Nat) (slot_id connection_id : Nat) :
    en50221_session_layer × List Event :=
  if data.length < 3 then (st, [])
  else if byteAt data 0 ≠ 2 then (st, [])
  else
    let session_number := byteAt data 1 * 256 + byteAt data 2
    if st.sessions.length ≤ session_number then (st, [])
    else
      let s := st.sessions.getD session_number dSession
      if slot_id ≠ s.slot_id then (st, [])
      else if connection_id ≠ s.connection_id then (st, [])
      else if s.state &&& S_STATE_ACTIVE = 0 then (st, [])
      else
        match s.callback with
        | some cb =>
          (st, [Event.dataEv cb slot_id session_number s.resource_id (data.drop 3)])
        | none => (st, [])

/-- The teardown loops of the transport callback: every entry that is not
Idle and satisfies the filter is notified once (when a session callback is
registered) and set back to Idle; base is the table index of the head. -/
def teardown (hasCB : Bool) (pred : en50221_session → Bool)
    (evSlot : en50221_session → Nat) :
    List en50221_session → Nat → List en50221_session × List Event
  | [], _ => ([], [])
  | s :: rest, i =>
    let r := teardown hasCB pred evSlot rest (i + 1)
    if s.state = S_STATE_IDLE then (s :: r.1, r.2)
    else if pred s then
      ({ s with state := S_STATE_IDLE } :: r.1,
       (if hasCB then [Event.lifecycle CbReason.close (evSlot s) ((i : Int)) s.resource_id]
        else []) ++ r.2)
    else (s :: r.1, r.2)

/-- Reasons of the transport callback (T_CALLBACK_REASON_*). -/
inductive TReason where
  | data
  | connectionClose
  | slotClose
  deriving DecidableEq, Repr

/-- en50221_sl_transport_callback: teardown fan-out for connection and slot
close, dispatch by SPDU tag for data. -/
def en50221_sl_transport_callback (env : CallbackEnv) (st : en50221_session_layer)
    (reason : TReason) (data : List Nat) (slot_id connection_id : Nat) :
    en50221_session_layer × List Event :=
  match reason with
  | TReason.connectionClose =>
    let r := teardown env.sessionCB.isSome (fun s => s.connection_id == connection_id)
      (fun s => s.slot_id) st.sessions 0
    ({ st with sessions := r.1 }, r.2)
  | TReason.slotClose =>
    let r := teardown env.sessionCB.isSome (fun s => s.slot_id == slot_id)
      (fun _ => slot_id) st.sessions 0
    ({ st with sessions := r.1 }, r.2)
  | TReason.data =>
    if data.length < 1 then (st, [])
    else if byteAt data 0 = ST_OPEN_SESSION_REQ then
      en50221_sl_handle_open_session_request env st (data.drop 1) slot_id connection_id
    else if byteAt data 0 = ST_CLOSE_SESSION_REQ then
      en50221_sl_handle_close_session_request env st (data.drop 1) slot_id connection_id
    else if byteAt data 0 = ST_SESSION_NUMBER then
      en50221_sl_handle_session_package st (data.drop 1) slot_id connection_id
    else if byteAt data 0 = ST_CREATE_SESSION_RES then
      en50221_sl_handle_create_session_response st (data.drop 1) slot_id connection_id
    else if byteAt data 0 = ST_CLOSE_SESSION_RES then
      en50221_sl_handle_close_session_response st (data.drop 1) slot_id connection_id
    else (st, [])

/-! Concrete states and environments for the end-to-end evaluations. -/

/-- A table entry as initialized by en50221_sl_create. -/
def idleSession : en50221_session := ⟨S_STATE_IDLE, 0, 0, 0, none⟩

/-- Environment where the lookup grants Open with data callback 7, the
lifecycle callback is registered and its Connecting hook returns 0, and
every transport write succeeds. -/
def envOpenOK : CallbackEnv :=
  ⟨some (fun _ _ => ⟨0, some 7⟩), some (fun _ _ _ _ => 0), fun _ _ _ => true, 0⟩

/-- Environment where the lookup refuses with decision -1 (unknown
resource); lifecycle callback registered, writes succeed. -/
def envRefuse : CallbackEnv :=
  ⟨some (fun _ _ => ⟨-1, none⟩), some (fun _ _ _ _ => 0), fun _ _ _ => true, 0⟩

/-- A freshly created layer with two sessions. -/
def stTwoIdle : en50221_session_layer := ⟨[idleSession, idleSession], SlError.noError⟩

/-- Layer after create_session on slot 2, connection 0, resource
0x00030041 (= 196673) with data callback 5: session 0 is InCreation. -/
def stInCreation : en50221_session_layer :=
  ⟨[⟨S_STATE_IN_CREATION, 196673, 2, 0, some 5⟩, idleSession], SlError.noError⟩

/-- One-session layer whose session 0 is Active on slot 2, connection 0,
resource 0x00030041. -/
def stOneActive : en50221_session_layer :=
  ⟨[⟨S_STATE_ACTIVE, 196673, 2, 0, some 5⟩], SlError.noError⟩

/-- One-session layer whose session 0 is InDeletion on slot 2,
connection 0, resource 0x00030041. -/
def stInDeletion : en50221_session_layer :=
  ⟨[⟨S_STATE_IN_DELETION, 196673, 2, 0, some 5⟩], SlError.noError⟩

/-- Like envOpenOK, but every transport write fails and
en50221_tl_get_error reports -3. -/
def envSendFail : CallbackEnv :=
  ⟨some (fun _ _ => ⟨0, some 7⟩), some (fun _ _ _ _ => 0), fun _ _ _ => false, -3⟩

/-- Five Active sessions: indices 0, 2, 4 on slot 7, indices 1, 3 on
slot 8 (sessions 0 to 3 on connection 0, session 4 on connection 1). -/
def stSlots : en50221_session_layer :=
  ⟨[⟨S_STATE_ACTIVE, 10, 7, 0, none⟩, ⟨S_STATE_ACTIVE, 11, 8, 0, none⟩,
    ⟨S_STATE_ACTIVE, 12, 7, 0, none⟩, ⟨S_STATE_ACTIVE, 13, 8, 0, none⟩,
    ⟨S_STATE_ACTIVE, 14, 7, 1, none⟩], SlError.noError⟩

/-- A malformed inbound SPDU in the sense of the claim and of section 4.1
of the spec: the buffer is shorter than the tag requires (tag byte, len
byte and the mandated body), the len byte differs from the value the tag
mandates, or the tag is not one of the five inbound tags.  The sizes here
are those of the wire format; for CreateSessionRes and CloseSessionRes the
handlers in the source demand one byte more than this, which only makes
them drop more inputs. -/
def spduMalformed (data : List Nat) : Bool :=
  match data with
  | [] => true
  | _ :: rest =>
    if byteAt data 0 = ST_OPEN_SESSION_REQ then
      decide (rest.length < 5 ∨ byteAt rest 0 ≠ 4)
    else if byteAt data 0 = ST_CLOSE_SESSION_REQ then
      decide (rest.length < 3 ∨ byteAt rest 0 ≠ 2)
    else if byteAt data 0 = ST_SESSION_NUMBER then
      decide (rest.length < 3 ∨ byteAt rest 0 ≠ 2)
    else if byteAt data 0 = ST_CREATE_SESSION_RES then
      decide (rest.length < 8 ∨ byteAt rest 0 ≠ 7)
    else if byteAt data 0 = ST_CLOSE_SESSION_RES then
      decide (rest.length < 4 ∨ byteAt rest 0 ≠ 3)
    else true

/-- Whether an event is a Close lifecycle call for session index i. -/
def isCloseFor (i : Nat) : Event → Bool
  | Event.lifecycle r _ j _ => r == CbReason.close && j == (i : Int)
  | _ => false

/-- Number of Close lifecycle calls for session index i in a trace. -/
def countClose (evs : List Event) (i : Nat) : Nat :=
  (evs.filter (isCloseFor i)).length

/-- C1.  The claim describes the module-initiated open success path: on
OpenSessionReq 91 04 00 01 00 41 over slot 3 connection 0, with the lookup
granting Open and the Connecting hook returning 0, session 0 should become
Active with resource 0x00010041 and the reply should be
92 07 00 00 01 00 41 00 00, followed by a Connected lifecycle call.  The
code instead scans for a free entry with state & S_STATE_IDLE where
S_STATE_IDLE is 0x00, so no entry is ever found: every session stays Idle,
the reply carries status 0xF0 and session bytes FF FF, sessions[-1] is
written, and the lifecycle callback fires ConnectFail with session -1. -/
theorem c1_module_open_eval :
    en50221_sl_transport_callback envOpenOK stTwoIdle TReason.data
        [0x91, 0x04, 0x00, 0x01, 0x00, 0x41] 3 0 =
      (stTwoIdle,
       [Event.lookupEv 3 0x10041,
        Event.send 3 0 [0x92, 0x07, 0xF0, 0x00, 0x01, 0x00, 0x41, 0xFF, 0xFF],
        Event.oobWrite (-1),
        Event.lifecycle CbReason.connectFail 3 (-1) 0x10041]) := by
  rfl

/-- C2.  The claim: create_session moves an Idle entry to InCreation and
transmits 93 06 rid4 sn2, and a later CreateSessionRes naming that session
with matching slot and connection moves it to Active (status 0x00) or back
to Idle (non-zero status).  The send half holds, but the response handler
demands at least 9 bytes after the tag while a well-formed response SPDU
94 07 00 00 03 00 41 00 00 delivers only 8 (and it reads the session
number from offsets 5 and 6 instead of 6 and 7), so the well-formed
response is dropped and the session stays InCreation. -/
theorem c2_host_create_eval :
    en50221_sl_create_session envOpenOK stTwoIdle 2 0 0x30041 (some 5) =
      (stInCreation, 0, [Event.send 2 0 [0x93, 0x06, 0x00, 0x03, 0x00, 0x41, 0x00, 0x00]]) ∧
    en50221_sl_transport_callback envOpenOK stInCreation TReason.data
        [0x94, 0x07, 0x00, 0x00, 0x03, 0x00, 0x41, 0x00, 0x00] 2 0 =
      (stInCreation, []) := by
  exact ⟨rfl, rfl⟩

/-- C3.  The claim: destroy_session moves an Active session to InDeletion
and transmits 95 02 sn2, and a later CloseSessionRes naming that session
with matching slot and connection returns it to Idle.  The send half
holds, but the response handler demands at least 5 bytes after the tag
while the well-formed response 96 03 00 00 00 delivers only 4 (and it
reads the session number from offsets 1 and 2 instead of 2 and 3), so the
response is dropped and the session stays InDeletion. -/
theorem c3_host_destroy_eval :
    en50221_sl_destroy_session envOpenOK stOneActive 0 =
      (stInDeletion, 0, [Event.send 2 0 [0x95, 0x02, 0x00, 0x00]]) ∧
    en50221_sl_transport_callback envOpenOK stInDeletion TReason.data
        [0x96, 0x03, 0x00, 0x00, 0x00] 2 0 =
      (stInDeletion, []) := by
  exact ⟨rfl, rfl⟩

/-- C4.  The claim: a refused OpenSessionReq without a picked slot (lookup
refuses, or no Idle entry remains) leaves every session record unchanged,
answers with status 0xF0, and invokes no session-lifecycle callback.  On
the refusal 91 04 00 FF FF FF (lookup decision -1) the code does send
92 07 F0 00 FF FF FF FF FF and the in-range records stay unchanged, but it
then writes sessions[-1].state (out of bounds) and fires the lifecycle
callback with ConnectFail(slot 3, session -1), contradicting the claim. -/
theorem c4_failed_open_eval :
    en50221_sl_transport_callback envRefuse stTwoIdle TReason.data
        [0x91, 0x04, 0x00, 0xFF, 0xFF, 0xFF] 3 0 =
      (stTwoIdle,
       [Event.lookupEv 3 0xFFFFFF,
        Event.send 3 0 [0x92, 0x07, 0xF0, 0x00, 0xFF, 0xFF, 0xFF, 0xFF, 0xFF],
        Event.oobWrite (-1),
        Event.lifecycle CbReason.connectFail 3 (-1) 0xFFFFFF]) := by
  rfl

/-- C5.  The claim: inbound session-number validation rejects out-of-range
or mismatched numbers with no state change, and the out-of-range rejection
happens before any session-table access.  In the CloseSessionReq handler
the code reads sessions[session_number].resource_id before the range
check: on 95 02 01 00 (session number 256) against a two-entry table the
model records the out-of-range read (oobRead 256) ahead of the rejection
reply, refuting the access-ordering part of the claim; the rejection
itself does leave the table unchanged. -/
theorem c5_close_req_oob_read_eval :
    en50221_sl_transport_callback envOpenOK stTwoIdle TReason.data
        [0x95, 0x02, 0x01, 0x00] 0 0 =
      (stTwoIdle,
       [Event.oobRead 256, Event.send 0 0 [0x96, 0x03, 0xF0, 0x01, 0x00]]) := by
  rfl

/-! Helper lemmas. -/

theorem get?_some_length {α : Type} : ∀ (l : List α) (n : Nat) (a : α),
    l.get? n = some a → n < l.length
  | [], _, _, h => by simp [List.get?] at h
  | _ :: _, 0, _, _ => Nat.succ_pos _
  | _ :: rest, n + 1, a, h => Nat.succ_lt_succ (get?_some_length rest n a h)

theorem getD_of_get?_some {α : Type} {l : List α} {n : Nat} {a : α} (d : α)
    (h : l.get? n = some a) : l.getD n d = a := by
  simp [List.getD_eq_getElem?_getD, ← List.get?_eq_getElem?, h]

/-- The open-session-request handler drops a buffer that fails its two
leading checks. -/
theorem open_req_drop (env : CallbackEnv) (st : en50221_session_layer)
    (d : List Nat) (slot conn : Nat) (h : d.length < 5 ∨ byteAt d 0 ≠ 4) :
    en50221_sl_handle_open_session_request env st d slot conn = (st, []) := by
  unfold en50221_sl_handle_open_session_request
  rcases h with h | h
  · rw [if_pos h]
  · by_cases h5 : d.length < 5
    · rw [if_pos h5]
    · rw [if_neg h5, if_pos h]

/-- The close-session-request handler drops a buffer that fails its two
leading checks. -/
theorem close_req_drop (env : CallbackEnv) (st : en50221_session_layer)
    (d : List Nat) (slot conn : Nat) (h : d.length < 3 ∨ byteAt d 0 ≠ 2) :
    en50221_sl_handle_close_session_request env st d slot conn = (st, []) := by
  unfold en50221_sl_handle_close_session_request
  rcases h with h | h
  · rw [if_pos h]
  · by_cases h3 : d.length < 3
    · rw [if_pos h3]
    · rw [if_neg h3, if_pos h]

/-- The session-package handler drops a buffer that fails its two leading
checks. -/
theorem session_package_drop (st : en50221_session_layer)
    (d : List Nat) (slot conn : Nat) (h : d.length < 3 ∨ byteAt d 0 ≠ 2) :
    en50221_sl_handle_session_package st d slot conn = (st, []) := by
  unfold en50221_sl_handle_session_package
  rcases h with h | h
  · rw [if_pos h]
  · by_cases h3 : d.length < 3
    · rw [if_pos h3]
    · rw [if_neg h3, if_pos h]

/-- The create-session-response handler drops a buffer shorter than the
wire format allows or whose len byte is not 7 (its own guard asks for at
least 9 bytes, one more than the 8 a well-formed SPDU delivers). -/
theorem create_res_drop (st : en50221_session_layer)
    (d : List Nat) (slot conn : Nat) (h : d.length < 8 ∨ byteAt d 0 ≠ 7) :
    en50221_sl_handle_create_session_response st d slot conn = (st, []) := by
  unfold en50221_sl_handle_create_session_response
  rcases h with h | h
  · rw [if_pos (by omega : d.length < 9)]
  · by_cases h9 : d.length < 9
    · rw [if_pos h9]
    · rw [if_neg h9, if_pos h]

/-- The close-session-response handler drops a buffer shorter than the
wire format allows or whose len byte is not 3 (its own guard asks for at
least 5 bytes, one more than the 4 a well-formed SPDU delivers). -/
theorem close_res_drop (st : en50221_session_layer)
    (d : List Nat) (slot conn : Nat) (h : d.length < 4 ∨ byteAt d 0 ≠ 3) :
    en50221_sl_handle_close_session_response st d slot conn = (st, []) := by
  unfold en50221_sl_handle_close_session_response
  rcases h with h | h
  · rw [if_pos (by omega : d.length < 5)]
  · by_cases h5 : d.length < 5
    · rw [if_pos h5]
    · rw [if_neg h5, if_pos h]

/-- C9.  Malformed-SPDU atomicity: every inbound Data SPDU that is
malformed in the sense of spduMalformed (shorter than its tag requires,
len byte different from the mandated value, or unknown tag) is dropped
with no change to any session record and no event at all: no transport
write and no user callback (lookup, lifecycle, or per-session data). -/
theorem c9_malformed_dropped (env : CallbackEnv) (st : en50221_session_layer)
    (slot conn : Nat) (data : List Nat) (h : spduMalformed data = true) :
    en50221_sl_transport_callback env st TReason.data data slot conn = (st, []) := by
  cases data with
  | nil => rfl
  | cons t rest =>
    simp only [spduMalformed] at h
    unfold en50221_sl_transport_callback
    rw [if_neg (by simp)]
    simp only [List.drop_succ_cons, List.drop_zero]
    by_cases h1 : byteAt (t :: rest) 0 = ST_OPEN_SESSION_REQ
    · rw [if_pos h1]; rw [if_pos h1] at h
      exact open_req_drop env st rest slot conn (of_decide_eq_true h)
    · rw [if_neg h1]; rw [if_neg h1] at h
      by_cases h2 : byteAt (t :: rest) 0 = ST_CLOSE_SESSION_REQ
      · rw [if_pos h2]; rw [if_pos h2] at h
        exact close_req_drop env st rest slot conn (of_decide_eq_true h)
      · rw [if_neg h2]; rw [if_neg h2] at h
        by_cases h3 : byteAt (t :: rest) 0 = ST_SESSION_NUMBER
        · rw [if_pos h3]; rw [if_pos h3] at h
          exact session_package_drop st rest slot conn (of_decide_eq_true h)
        · rw [if_neg h3]; rw [if_neg h3] at h
          by_cases h4 : byteAt (t :: rest) 0 = ST_CREATE_SESSION_RES
          · rw [if_pos h4]; rw [if_pos h4] at h
            exact create_res_drop st rest slot conn (of_decide_eq_true h)
          · rw [if_neg h4]; rw [if_neg h4] at h
            by_cases h5 : byteAt (t :: rest) 0 = ST_CLOSE_SESSION_RES
            · rw [if_pos h5]; rw [if_pos h5] at h
              exact close_res_drop st rest slot conn (of_decide_eq_true h)
            · rw [if_neg h5]

/-- Witness for C9 at a concrete malformed input: an OpenSessionReq whose
len byte is 3 instead of 4. -/
theorem c9_malformed_dropped_witness :
    spduMalformed [0x91, 0x03, 0x00, 0x00, 0x00, 0x00] = true ∧
    en50221_sl_transport_callback envOpenOK stTwoIdle TReason.data
        [0x91, 0x03, 0x00, 0x00, 0x00, 0x00] 0 0 = (stTwoIdle, []) :=
  ⟨by decide,
   c9_malformed_dropped envOpenOK stTwoIdle 0 0 [0x91, 0x03, 0x00, 0x00, 0x00, 0x00]
     (by decide)⟩

theorem findFirst_isNone {α : Type} (p : α → Bool) (l : List α)
    (h : ∀ s ∈ l, p s = false) : findFirst p l = none := by
  induction l with
  | nil => rfl
  | cons s rest ih =>
    have hs : p s = false := h s (List.mem_cons_self s rest)
    have hr : findFirst p rest = none :=
      ih (fun x hx => h x (List.mem_cons_of_mem s hx))
    simp [findFirst, hs, hr]

theorem findFirst_eq_some {α : Type} (p : α → Bool) :
    ∀ (l : List α) (n : Nat) (a : α), l.get? n = some a → p a = true →
      (∀ m b, m < n → l.get? m = some b → p b = false) → findFirst p l = some n := by
  intro l
  induction l with
  | nil => intro n a h; simp [List.get?] at h
  | cons s rest ih =>
    intro n a hget hp hleast
    cases n with
    | zero =>
      have : s = a := by simpa [List.get?] using hget
      simp [findFirst, this ▸ hp]
    | succ m =>
      have hs : p s = false := hleast 0 s (Nat.succ_pos m) rfl
      have hr : findFirst p rest = some m :=
        ih m a hget hp (fun k b hk hb => hleast (k + 1) b (Nat.succ_lt_succ hk) hb)
      simp [findFirst, hs, hr]

/-- C8, counterexample.  On a full table (a single Active session),
create_session records EN50221ERR_BADSESSIONNUMBER, which is a different
error of the taxonomy than NoFreeSession; the claim that the recorded
error is NoFreeSession is therefore false. -/
theorem c8_error_code_counterexample :
    en50221_sl_get_error (en50221_sl_create_session envOpenOK stOneActive 0 0 5 none).1 =
      SlError.badSessionNumber ∧
    SlError.badSessionNumber ≠ SlError.noFreeSession :=
  ⟨rfl, by decide⟩

/-- C8, amended.  create_session selects the lowest-index Idle entry for
the new session; when no entry is Idle it makes no state change, returns
-1, and records EN50221ERR_BADSESSIONNUMBER — the same code used for an
invalid session number, not a separate NoFreeSession error — retrievable
via en50221_sl_get_error. -/
theorem c8_alloc_amended (env : CallbackEnv) (st : en50221_session_layer)
    (slot conn rid : Nat) (cb : Option Nat) :
    (∀ n a, st.sessions.get? n = some a → a.state = S_STATE_IDLE →
      (∀ m b, m < n → st.sessions.get? m = some b → b.state ≠ S_STATE_IDLE) →
      (en50221_sl_create_session env st slot conn rid cb).1.sessions =
        setSession st.sessions n
          (fun _ => ⟨S_STATE_IN_CREATION, rid % 4294967296, slot, conn, cb⟩)) ∧
    ((∀ a ∈ st.sessions, a.state ≠ S_STATE_IDLE) →
      en50221_sl_create_session env st slot conn rid cb =
        ({ st with error := SlError.badSessionNumber }, -1, []) ∧
      en50221_sl_get_error (en50221_sl_create_session env st slot conn rid cb).1 =
        SlError.badSessionNumber) := by
  constructor
  · intro n a hget hidle hleast
    have hfind : findFirst (fun s => s.state == S_STATE_IDLE) st.sessions = some n :=
      findFirst_eq_some _ st.sessions n a hget (by simp [hidle])
        (fun m b hm hb => by simpa using hleast m b hm hb)
    simp only [en50221_sl_create_session, hfind]
    split <;> rfl
  · intro hfull
    have hfind : findFirst (fun s => s.state == S_STATE_IDLE) st.sessions = none :=
      findFirst_isNone _ st.sessions (fun x hx => by simpa using hfull x hx)
    constructor
    · simp only [en50221_sl_create_session, hfind]
    · simp only [en50221_sl_create_session, hfind, en50221_sl_get_error]

/-- Witness for C8 amended: with two Idle sessions the populated entry is
index 0; with the full one-entry table the call fails with
EN50221ERR_BADSESSIONNUMBER. -/
theorem c8_alloc_amended_witness :
    (en50221_sl_create_session envOpenOK stTwoIdle 2 0 0x30041 (some 5)).1.sessions =
      setSession stTwoIdle.sessions 0
        (fun _ => ⟨S_STATE_IN_CREATION, 0x30041 % 4294967296, 2, 0, some 5⟩) ∧
    en50221_sl_create_session envOpenOK stOneActive 0 0 5 none =
      ({ stOneActive with error := SlError.badSessionNumber }, -1, []) :=
  ⟨(c8_alloc_amended envOpenOK stTwoIdle 2 0 0x30041 (some 5)).1 0 idleSession rfl rfl
     (fun m _ hm _ => absurd hm (Nat.not_lt_zero m)),
   ((c8_alloc_amended envOpenOK stOneActive 0 0 5 none).2 (by decide)).1⟩

/-- C10.  create_session is not atomic on transport failure: once it has
selected the lowest Idle entry and populated it, a failing transport write
of the CreateSession SPDU makes it return -1 with the transport error code
recorded, while the selected session stays populated in state InCreation
(no rollback) and every other entry of the table is unchanged. -/
theorem c10_create_transport_fail (env : CallbackEnv) (st : en50221_session_layer)
    (slot conn rid : Nat) (cb : Option Nat) (n : Nat) (a : en50221_session)
    (hget : st.sessions.get? n = some a) (hidle : a.state = S_STATE_IDLE)
    (hleast : ∀ m b, m < n → st.sessions.get? m = some b → b.state ≠ S_STATE_IDLE)
    (hfail : env.sendOK slot conn (createSPDU (rid % 4294967296) n) = false) :
    en50221_sl_create_session env st slot conn rid cb =
      ({ st with
          sessions := (setSession st.sessions n
            (fun _ => ⟨S_STATE_IN_CREATION, rid % 4294967296, slot, conn, cb⟩)),
          error := SlError.transportError env.tlError }, -1,
       [Event.send slot conn (createSPDU (rid % 4294967296) n)]) := by
  have hfind : findFirst (fun s => s.state == S_STATE_IDLE) st.sessions = some n :=
    findFirst_eq_some _ st.sessions n a hget (by simp [hidle])
      (fun m b hm hb => by simpa using hleast m b hm hb)
  simp only [en50221_sl_create_session, hfind, hfail]
  rfl

/-- Witness for C10: with two Idle sessions and a failing transport,
create_session leaves session 0 InCreation and records the transport
error -3. -/
theorem c10_create_transport_fail_witness :
    en50221_sl_create_session envSendFail stTwoIdle 2 0 0x30041 (some 5) =
      ({ stTwoIdle with
          sessions := [⟨S_STATE_IN_CREATION, 196673, 2, 0, some 5⟩, idleSession],
          error := SlError.transportError (-3) }, -1,
       [Event.send 2 0 [0x93, 0x06, 0x00, 0x03, 0x00, 0x41, 0x00, 0x00]]) :=
  c10_create_transport_fail envSendFail stTwoIdle 2 0 0x30041 (some 5) 0 idleSession
    rfl rfl (fun m _ hm _ => absurd hm (Nat.not_lt_zero m)) rfl

/-- A Data callback whose first byte is the CloseSessionReq tag reaches the
close-session-request handler with the rest of the buffer. -/
theorem dispatch_close_req (env : CallbackEnv) (st : en50221_session_layer)
    (d : List Nat) (slot conn : Nat) :
    en50221_sl_transport_callback env st TReason.data (ST_CLOSE_SESSION_REQ :: d) slot conn =
      en50221_sl_handle_close_session_request env st d slot conn := by
  unfold en50221_sl_transport_callback
  norm_num [byteAt, List.getD, ST_CLOSE_SESSION_REQ, ST_OPEN_SESSION_REQ, ST_SESSION_NUMBER,
    ST_CREATE_SESSION_RES, ST_CLOSE_SESSION_RES]

/-- C6.  Module-initiated close.  When an inbound CloseSessionReq names a
session (in range of the table) whose record is Active with slot and
connection equal to the receiving ones, the session goes to Idle, the
reply is CloseSessionRes with status 0x00 and the same session number, and
the lifecycle callback fires Close once for that session.  When the
recorded slot or connection mismatch, the reply is CloseSessionRes with
status 0xF0 and no session changes state. -/
theorem c6_module_close (env : CallbackEnv) (st : en50221_session_layer)
    (sn slot conn : Nat) (a : en50221_session)
    (hget : st.sessions.get? sn = some a) (hsn : sn < 65536) :
    (a.state = S_STATE_ACTIVE → slot = a.slot_id → conn = a.connection_id →
      env.sessionCB.isSome = true →
      en50221_sl_transport_callback env st TReason.data
          (ST_CLOSE_SESSION_REQ :: [2, sn / 256, sn % 256]) slot conn =
        ({ st with sessions := (setSession st.sessions sn
            (fun t => { t with state := S_STATE_IDLE })) },
         [Event.send slot conn [ST_CLOSE_SESSION_RES, 3, 0x00, sn / 256, sn % 256],
          Event.lifecycle CbReason.close slot ((sn : Int)) a.resource_id])) ∧
    ((slot ≠ a.slot_id ∨ conn ≠ a.connection_id) →
      en50221_sl_transport_callback env st TReason.data
          (ST_CLOSE_SESSION_REQ :: [2, sn / 256, sn % 256]) slot conn =
        (st, [Event.send slot conn [ST_CLOSE_SESSION_RES, 3, 0xF0, sn / 256, sn % 256]])) := by
  have hlen : sn < st.sessions.length := get?_some_length st.sessions sn a hget
  have hd : st.sessions.getD sn dSession = a := getD_of_get?_some dSession hget
  have hparse : byteAt [2, sn / 256, sn % 256] 1 * 256 + byteAt [2, sn / 256, sn % 256] 2
      = sn := by
    simp [byteAt, List.getD]
    omega
  have hdiv : u8n (sn / 256) = sn / 256 := by
    unfold u8n
    omega
  have hmod : u8n (sn % 256) = sn % 256 := by
    unfold u8n
    omega
  constructor
  · intro hact hslot hconn hcb
    obtain ⟨f, hf⟩ := Option.isSome_iff_exists.mp hcb
    rw [dispatch_close_req]
    simp only [en50221_sl_handle_close_session_request]
    rw [if_neg (by norm_num), if_neg (by norm_num [byteAt, List.getD])]
    rw [hparse, hd, if_pos hlen, if_neg (Nat.not_le.mpr hlen)]
    rw [if_neg (by simp [hslot]), if_neg (by simp [hconn]), hf]
    simp [u8n, hsn]
    omega
  · intro hmm
    rw [dispatch_close_req]
    simp only [en50221_sl_handle_close_session_request]
    rw [if_neg (by norm_num), if_neg (by norm_num [byteAt, List.getD])]
    rw [hparse, hd, if_pos hlen, if_neg (Nat.not_le.mpr hlen)]
    by_cases hslot : slot = a.slot_id
    · rcases hmm with hmm | hmm
      · exact absurd hslot hmm
      · rw [if_neg (by simp [hslot]), if_pos hmm]
        simp [u8n, hsn]
        omega
    · rw [if_pos hslot]
      simp [u8n, hsn]
      omega

/-- Witness for C6 at a concrete input: closing Active session 0 of
stOneActive from slot 2, connection 0. -/
theorem c6_module_close_witness :
    en50221_sl_transport_callback envOpenOK stOneActive TReason.data
        (ST_CLOSE_SESSION_REQ :: [2, 0 / 256, 0 % 256]) 2 0 =
      ({ stOneActive with sessions := (setSession stOneActive.sessions 0
          (fun t => { t with state := S_STATE_IDLE })) },
       [Event.send 2 0 [ST_CLOSE_SESSION_RES, 3, 0x00, 0 / 256, 0 % 256],
        Event.lifecycle CbReason.close 2 ((0 : Nat) : Int) 196673]) :=
  (c6_module_close envOpenOK stOneActive 0 2 0 ⟨S_STATE_ACTIVE, 196673, 2, 0, some 5⟩
      rfl (by decide)).1 rfl rfl rfl rfl

theorem countClose_append (a b : List Event) (i : Nat) :
    countClose (a ++ b) i = countClose a i + countClose b i := by
  simp [countClose, List.filter_append]

theorem teardown_fst (hasCB : Bool) (pred : en50221_session → Bool)
    (evSlot : en50221_session → Nat) :
    ∀ (l : List en50221_session) (base : Nat),
      (teardown hasCB pred evSlot l base).1 =
        l.map (fun s => if s.state = S_STATE_IDLE then s
          else if pred s then { s with state := S_STATE_IDLE } else s) := by
  intro l
  induction l with
  | nil => intro base; rfl
  | cons s rest ih =>
    intro base
    simp only [teardown, List.map_cons]
    by_cases h1 : s.state = S_STATE_IDLE
    · simp [h1, ih]
    · by_cases h2 : pred s
      · simp [h1, h2, ih]
      · simp [h1, h2, ih]

theorem countClose_close_single (sl : Nat) (j : Int) (rid i : Nat) :
    countClose [Event.lifecycle CbReason.close sl j rid] i =
      if j = (i : Int) then 1 else 0 := by
  by_cases h : j = (i : Int)
  · simp [countClose, isCloseFor, List.filter, h]
  · have hb : (j == (i : Int)) = false := beq_eq_false_iff_ne.mpr h
    simp [countClose, isCloseFor, List.filter, h, hb]

theorem teardown_count_lt (pred : en50221_session → Bool)
    (evSlot : en50221_session → Nat) :
    ∀ (l : List en50221_session) (base k : Nat), k < base →
      countClose (teardown true pred evSlot l base).2 k = 0 := by
  intro l
  induction l with
  | nil => intro base k _; rfl
  | cons s rest ih =>
    intro base k hk
    simp only [teardown]
    by_cases h1 : s.state = S_STATE_IDLE
    · simp only [if_pos h1]
      exact ih (base + 1) k (by omega)
    · by_cases h2 : pred s
      · simp only [if_neg h1, if_pos h2, eq_self_iff_true, if_true]
        rw [countClose_append, countClose_close_single,
          if_neg (by omega : ¬ ((base : Int) = (k : Int))), ih (base + 1) k (by omega)]
      · simp only [if_neg h1, if_neg h2]
        exact ih (base + 1) k (by omega)

theorem teardown_count (pred : en50221_session → Bool)
    (evSlot : en50221_session → Nat) :
    ∀ (l : List en50221_session) (base k : Nat),
      countClose (teardown true pred evSlot l base).2 (base + k) =
        (match l.get? k with
         | some s => if s.state ≠ S_STATE_IDLE ∧ pred s = true then 1 else 0
         | none => 0) := by
  intro l
  induction l with
  | nil => intro base k; rfl
  | cons s rest ih =>
    intro base k
    simp only [teardown]
    cases k with
    | zero =>
      simp only [Nat.add_zero]
      by_cases h1 : s.state = S_STATE_IDLE
      · simp only [if_pos h1]
        rw [teardown_count_lt pred evSlot rest (base + 1) base (by omega)]
        simp [List.get?, h1]
      · by_cases h2 : pred s
        · simp only [if_neg h1, if_pos h2, eq_self_iff_true, if_true]
          rw [countClose_append, countClose_close_single, if_pos rfl,
            teardown_count_lt pred evSlot rest (base + 1) base (by omega)]
          simp [List.get?, h1, h2]
        · simp only [if_neg h1, if_neg h2]
          rw [teardown_count_lt pred evSlot rest (base + 1) base (by omega)]
          simp [List.get?, h1, h2]
    | succ m =>
      have hrest := ih (base + 1) m
      rw [show base + 1 + m = base + (m + 1) by omega] at hrest
      by_cases h1 : s.state = S_STATE_IDLE
      · simp only [if_pos h1]
        rw [hrest]
        simp [List.get?]
      · by_cases h2 : pred s
        · simp only [if_neg h1, if_pos h2, eq_self_iff_true, if_true]
          rw [countClose_append, countClose_close_single,
            if_neg (by omega : ¬ ((base : Int) = ((base + (m + 1) : Nat) : Int))), hrest]
          simp [List.get?]
        · simp only [if_neg h1, if_neg h2]
          rw [hrest]
          simp [List.get?]

/-- C7.  Teardown completeness.  With the session-lifecycle callback
registered, after the transport signals ConnectionClose for connection c,
the table is mapped so that every session that was not Idle and whose
connection_id is c becomes Idle while every other entry is unchanged, and
the trace holds exactly one Close lifecycle call for each such session and
none for the others; analogously after SlotClose for slot s over slot_id. -/
theorem c7_teardown_complete (env : CallbackEnv) (st : en50221_session_layer)
    (d : List Nat) (slot conn : Nat) (hcb : env.sessionCB.isSome = true) :
    ((en50221_sl_transport_callback env st TReason.connectionClose d slot conn).1.sessions =
        st.sessions.map (fun s => if s.state = S_STATE_IDLE then s
          else if s.connection_id == conn then { s with state := S_STATE_IDLE } else s) ∧
      ∀ i a, st.sessions.get? i = some a →
        countClose
          (en50221_sl_transport_callback env st TReason.connectionClose d slot conn).2 i =
          if a.state ≠ S_STATE_IDLE ∧ a.connection_id = conn then 1 else 0) ∧
    ((en50221_sl_transport_callback env st TReason.slotClose d slot conn).1.sessions =
        st.sessions.map (fun s => if s.state = S_STATE_IDLE then s
          else if s.slot_id == slot then { s with state := S_STATE_IDLE } else s) ∧
      ∀ i a, st.sessions.get? i = some a →
        countClose
          (en50221_sl_transport_callback env st TReason.slotClose d slot conn).2 i =
          if a.state ≠ S_STATE_IDLE ∧ a.slot_id = slot then 1 else 0) := by
  simp only [en50221_sl_transport_callback, hcb]
  refine ⟨⟨teardown_fst true _ _ st.sessions 0, ?_⟩, ⟨teardown_fst true _ _ st.sessions 0, ?_⟩⟩
  · intro i a hget
    have := teardown_count (fun s => s.connection_id == conn) (fun s => s.slot_id)
      st.sessions 0 i
    rw [Nat.zero_add] at this
    rw [this, hget]
    simp
  · intro i a hget
    have := teardown_count (fun s => s.slot_id == slot) (fun _ => slot) st.sessions 0 i
    rw [Nat.zero_add] at this
    rw [this, hget]
    simp

/-- Witness for C7 at the slot-close example of the spec: closing slot 7 on
stSlots leaves sessions 1 and 3 (slot 8) Active, sets 0, 2, 4 to Idle, and
the trace holds one Close for session 0 and none for session 1. -/
theorem c7_teardown_complete_witness :
    (en50221_sl_transport_callback envOpenOK stSlots TReason.slotClose [] 7 0).1.sessions =
      [⟨S_STATE_IDLE, 10, 7, 0, none⟩, ⟨S_STATE_ACTIVE, 11, 8, 0, none⟩,
       ⟨S_STATE_IDLE, 12, 7, 0, none⟩, ⟨S_STATE_ACTIVE, 13, 8, 0, none⟩,
       ⟨S_STATE_IDLE, 14, 7, 1, none⟩] ∧
    countClose (en50221_sl_transport_callback envOpenOK stSlots TReason.slotClose [] 7 0).2 0
      = 1 ∧
    countClose (en50221_sl_transport_callback envOpenOK stSlots TReason.slotClose [] 7 0).2 1
      = 0 := by
  have h := c7_teardown_complete envOpenOK stSlots [] 7 0 rfl
  refine ⟨?_, ?_, ?_⟩
  · rw [h.2.1]
    rfl
  · rw [h.2.2 0 ⟨S_STATE_ACTIVE, 10, 7, 0, none⟩ rfl]
    rfl
  · rw [h.2.2 1 ⟨S_STATE_ACTIVE, 11, 8, 0, none⟩ rfl]
    rfl

end EN50221
